import Mathlib

/-!
Shallow embedding of the NeighborFit compatibility scoring engine.

Modelling conventions:
* JavaScript numbers are modelled as exact rationals (`ℚ`); every numeric
  literal appearing in the source (`0.3`, `1.2`, ...) is taken at its exact
  rational value.
* `Math.round` rounds to the nearest integer with ties toward positive
  infinity, i.e. `⌊q + 1/2⌋`.
* A JavaScript computation whose result is non-finite (`NaN` or `±Infinity`,
  arising only from division by zero in this code) is modelled as `none` of
  an `Option` type.  On every path of this program a non-finite intermediate
  value propagates to a non-finite final value, which the `Option` bind
  reproduces exactly.
* A runtime-absent object field (`undefined`) is modelled as `none`; the
  `priorities` map of a request body may omit any of its eight entries, which
  is what the source's `weights[category] || 5` defaulting reacts to.
-/

namespace NeighborFit

/-- JS `Math.round`: nearest integer, ties toward positive infinity. -/
def jsRound (q : ℚ) : ℤ := ⌊q + 1/2⌋

/-- `Math.round` viewed as a map back into the JS number type. -/
def jsRoundQ (q : ℚ) : ℚ := (jsRound q : ℚ)

structure Location where
  latitude : ℚ
  longitude : ℚ
  address : Option String
  city : Option String
  state : Option String
  zipCode : Option String
deriving DecidableEq

structure AgeGroups where
  under18 : ℚ
  age18to34 : ℚ
  age35to49 : ℚ
  age50to64 : ℚ
  over65 : ℚ
deriving DecidableEq

structure Demographics where
  totalPopulation : ℚ
  medianAge : ℚ
  medianIncome : ℚ
  diversityIndex : ℚ
  educationLevel : String
  familyFriendly : Bool
  ageGroups : AgeGroups
deriving DecidableEq

structure Amenities where
  restaurants : ℚ
  cafes : ℚ
  bars : ℚ
  groceryStores : ℚ
  parks : ℚ
  gyms : ℚ
  schools : ℚ
  hospitals : ℚ
  shoppingCenters : ℚ
  entertainment : ℚ
deriving DecidableEq

structure SafetyMetrics where
  crimeRate : ℚ
  safetyScore : ℚ
  policeStations : ℚ
  emergencyServices : ℚ
  wellLitStreets : Bool
deriving DecidableEq

structure TransportationInfo where
  walkabilityScore : ℚ
  transitScore : ℚ
  bikeScore : ℚ
  publicTransitStops : ℚ
  bikeLanes : ℚ
  parkingAvailability : String
deriving DecidableEq

structure LifestyleMetrics where
  nightlife : ℚ
  familyActivities : ℚ
  outdoorActivities : ℚ
  culturalEvents : ℚ
  communityEngagement : ℚ
deriving DecidableEq

structure Neighborhood where
  id : String
  name : String
  location : Location
  demographics : Demographics
  amenities : Amenities
  safety : SafetyMetrics
  transportation : TransportationInfo
  lifestyle : LifestyleMetrics
deriving DecidableEq

structure Budget where
  min : ℚ
  max : ℚ
deriving DecidableEq

/-- The eight priority weights of a request body; any entry may be absent
at runtime (`undefined`), which is modelled by `none`. -/
structure Priorities where
  safety : Option ℚ
  amenities : Option ℚ
  transportation : Option ℚ
  lifestyle : Option ℚ
  affordability : Option ℚ
  familyFriendly : Option ℚ
  nightlife : Option ℚ
  quietness : Option ℚ
deriving DecidableEq

structure LifestyleProfile where
  ageGroup : String
  activityLevel : String
  socialPreference : String
  workStyle : String
deriving DecidableEq

structure UserPreferences where
  id : String
  location : Location
  budget : Budget
  priorities : Priorities
  lifestyle : LifestyleProfile
  mustHaves : List String
  dealBreakers : List String
deriving DecidableEq

def WEIGHT_MULTIPLIER : ℚ := 10

def MAX_SCORE : ℚ := 100

/-- `calculateSafetyScore`: safety score plus a low-crime bonus, capped at 100.
The source reads the safety priority weight into an unused local. -/
def calculateSafetyScore (preferences : UserPreferences) (neighborhood : Neighborhood) : ℚ :=
  let safetyWeight := preferences.priorities.safety
  let safetyScore := neighborhood.safety.safetyScore
  let crimeBonus := max 0 ((50 - neighborhood.safety.crimeRate) / 50) * 10
  min MAX_SCORE (safetyScore + crimeBonus)

/-- Sum of the ten amenity counts (`Object.values(amenities).reduce`). -/
def totalAmenitiesCount (a : Amenities) : ℚ :=
  a.restaurants + a.cafes + a.bars + a.groceryStores + a.parks +
    a.gyms + a.schools + a.hospitals + a.shoppingCenters + a.entertainment

/-- `calculateAmenitiesScore`: total amenity count normalized to 0..100. -/
def calculateAmenitiesScore (preferences : UserPreferences) (neighborhood : Neighborhood) : ℚ :=
  let amenitiesWeight := preferences.priorities.amenities
  let totalAmenities := totalAmenitiesCount neighborhood.amenities
  min 100 (totalAmenities / 50 * 100)

/-- `calculateTransportationScore`: rounded weighted blend of the three
transportation scores. -/
def calculateTransportationScore (preferences : UserPreferences) (neighborhood : Neighborhood) : ℚ :=
  let transportation := neighborhood.transportation
  jsRoundQ (transportation.walkabilityScore * 0.4 +
    transportation.transitScore * 0.3 +
    transportation.bikeScore * 0.3)

/-- `calculateAgeGroupCompatibility`.  For the three population-fraction
branches the source divides by `totalPopulation` with no guard; a zero
population therefore yields a non-finite JS number, modelled as `none`. -/
def calculateAgeGroupCompatibility (userAgeGroup : String) (demographics : Demographics) : Option ℚ :=
  let ageGroups := demographics.ageGroups
  let totalPopulation := demographics.totalPopulation
  match userAgeGroup with
  | "young" =>
      if totalPopulation = 0 then none
      else some (ageGroups.age18to34 / totalPopulation * 100)
  | "family" =>
      if totalPopulation = 0 then none
      else some ((ageGroups.age35to49 + ageGroups.under18) / totalPopulation * 100)
  | "senior" =>
      if totalPopulation = 0 then none
      else some (ageGroups.over65 / totalPopulation * 100)
  | "mixed" => some 75
  | _ => some 50

/-- `calculateActivityCompatibility`. -/
def calculateActivityCompatibility (userActivityLevel : String) (lifestyle : LifestyleMetrics) : ℚ :=
  let outdoorScore := lifestyle.outdoorActivities
  let culturalScore := lifestyle.culturalEvents
  match userActivityLevel with
  | "high" => jsRoundQ ((outdoorScore + culturalScore) / 2)
  | "medium" => jsRoundQ ((outdoorScore + culturalScore + 50) / 3)
  | "low" => jsRoundQ ((100 - outdoorScore + 100 - culturalScore) / 2)
  | _ => 50

/-- `calculateSocialCompatibility`. -/
def calculateSocialCompatibility (socialPreference : String) (lifestyle : LifestyleMetrics) : ℚ :=
  let communityScore := lifestyle.communityEngagement
  let nightlifeScore := lifestyle.nightlife
  match socialPreference with
  | "extrovert" => jsRoundQ ((communityScore + nightlifeScore) / 2)
  | "introvert" => jsRoundQ ((100 - communityScore + 100 - nightlifeScore) / 2)
  | "balanced" => jsRoundQ ((communityScore + (100 - nightlifeScore)) / 2)
  | _ => 50

/-- `calculateLifestyleScore`: rounded weighted blend of age-group, activity
and social compatibility.  Non-finite age-group compatibility propagates. -/
def calculateLifestyleScore (preferences : UserPreferences) (neighborhood : Neighborhood) : Option ℚ :=
  let lifestyle := neighborhood.lifestyle
  let userLifestyle := preferences.lifestyle
  (calculateAgeGroupCompatibility userLifestyle.ageGroup neighborhood.demographics).map
    fun ageGroupScore =>
      let activityScore := calculateActivityCompatibility userLifestyle.activityLevel lifestyle
      let socialScore := calculateSocialCompatibility userLifestyle.socialPreference lifestyle
      jsRoundQ (ageGroupScore * 0.3 + activityScore * 0.3 + socialScore * 0.4)

/-- `calculateAffordabilityScore`: banded comparison of the estimated housing
cost (30% of median income) against the budget range. -/
def calculateAffordabilityScore (preferences : UserPreferences) (neighborhood : Neighborhood) : ℚ :=
  let budget := preferences.budget
  let medianIncome := neighborhood.demographics.medianIncome
  let estimatedHousingCost := medianIncome * 0.3
  if estimatedHousingCost ≤ budget.max ∧ estimatedHousingCost ≥ budget.min then 100
  else if estimatedHousingCost ≤ budget.max * 1.2 then 80
  else if estimatedHousingCost ≤ budget.max * 1.5 then 50
  else 20

/-- `calculateFamilyFriendlyScore`.  The family population fraction divides by
`totalPopulation` with no guard; a zero population yields a non-finite JS
number, modelled as `none`. -/
def calculateFamilyFriendlyScore (preferences : UserPreferences) (neighborhood : Neighborhood) : Option ℚ :=
  let demographics := neighborhood.demographics
  let amenities := neighborhood.amenities
  if demographics.totalPopulation = 0 then none
  else
    some (jsRoundQ (min 25 (amenities.schools * 5) +
      min 25 ((amenities.parks + neighborhood.lifestyle.familyActivities) * 2) +
      (demographics.ageGroups.under18 + demographics.ageGroups.age35to49) /
        demographics.totalPopulation * 50))

/-- `calculateNightlifeScore`. -/
def calculateNightlifeScore (preferences : UserPreferences) (neighborhood : Neighborhood) : ℚ :=
  let amenities := neighborhood.amenities
  let lifestyle := neighborhood.lifestyle
  jsRoundQ (min 40 ((amenities.bars + amenities.restaurants) * 2) +
    lifestyle.nightlife * 0.6)

/-- `calculateQuietnessScore`. -/
def calculateQuietnessScore (preferences : UserPreferences) (neighborhood : Neighborhood) : ℚ :=
  let lifestyle := neighborhood.lifestyle
  let amenities := neighborhood.amenities
  let noiseFactors := (lifestyle.nightlife + amenities.entertainment) / 2
  let quietnessScore := max 0 (100 - noiseFactors)
  jsRoundQ quietnessScore

/-- The source's `weights[category] || 5`: an absent or falsy (zero) weight is
replaced by 5 in the weighted numerator. -/
def weightOrDefault (w : Option ℚ) : ℚ :=
  match w with
  | none => 5
  | some v => if v = 0 then 5 else v

/-- The source's `Object.values(weights).reduce((sum, w) => sum + w, 0)`:
the raw sum of the priority entries actually present, with no defaulting. -/
def rawWeightTotal (w : Priorities) : ℚ :=
  w.safety.getD 0 + w.amenities.getD 0 + w.transportation.getD 0 +
    w.lifestyle.getD 0 + w.affordability.getD 0 + w.familyFriendly.getD 0 +
    w.nightlife.getD 0 + w.quietness.getD 0

/-- `calculateCompatibility`: the eight sub-scores are combined, each weighted
by its defaulted priority and divided by the raw total weight, then rounded.
A non-finite sub-score or a zero total weight makes the JS result non-finite,
modelled as `none`. -/
def calculateCompatibility (preferences : UserPreferences) (neighborhood : Neighborhood) : Option ℤ :=
  (calculateLifestyleScore preferences neighborhood).bind fun lifestyleScore =>
  (calculateFamilyFriendlyScore preferences neighborhood).bind fun familyFriendlyScore =>
  let weights := preferences.priorities
  let totalWeight := rawWeightTotal weights
  if totalWeight = 0 then none
  else
    some (jsRound (
      calculateSafetyScore preferences neighborhood * weightOrDefault weights.safety / totalWeight +
      calculateAmenitiesScore preferences neighborhood * weightOrDefault weights.amenities / totalWeight +
      calculateTransportationScore preferences neighborhood * weightOrDefault weights.transportation / totalWeight +
      lifestyleScore * weightOrDefault weights.lifestyle / totalWeight +
      calculateAffordabilityScore preferences neighborhood * weightOrDefault weights.affordability / totalWeight +
      familyFriendlyScore * weightOrDefault weights.familyFriendly / totalWeight +
      calculateNightlifeScore preferences neighborhood * weightOrDefault weights.nightlife / totalWeight +
      calculateQuietnessScore preferences neighborhood * weightOrDefault weights.quietness / totalWeight))

/-- `generateMatchReasons`: threshold rules pushing strings in a fixed order. -/
def generateMatchReasons (preferences : UserPreferences) (neighborhood : Neighborhood) : List String :=
  let reasons : List String := []
  let reasons := if neighborhood.safety.safetyScore > 80 then
    reasons ++ ["Excellent safety ratings"] else reasons
  let totalAmenities := totalAmenitiesCount neighborhood.amenities
  let reasons := if totalAmenities > 30 then
    reasons ++ ["Abundant local amenities"] else reasons
  let reasons := if neighborhood.transportation.walkabilityScore > 70 then
    reasons ++ ["Highly walkable neighborhood"] else reasons
  let lifestyle := preferences.lifestyle
  let reasons := if lifestyle.ageGroup = "family" ∧ neighborhood.demographics.familyFriendly then
    reasons ++ ["Family-friendly community"] else reasons
  reasons

/-- `generatePotentialConcerns`: threshold rules pushing strings in a fixed order. -/
def generatePotentialConcerns (preferences : UserPreferences) (neighborhood : Neighborhood) : List String :=
  let concerns : List String := []
  let concerns := if neighborhood.safety.crimeRate > 30 then
    concerns ++ ["Higher than average crime rate"] else concerns
  let budget := preferences.budget
  let estimatedCost := neighborhood.demographics.medianIncome * 0.3
  let concerns := if estimatedCost > budget.max then
    concerns ++ ["May exceed your budget range"] else concerns
  let concerns := if neighborhood.transportation.walkabilityScore < 30 then
    concerns ++ ["Limited walkability"] else concerns
  concerns

/-- `generateRecommendations`: threshold rules pushing strings in a fixed order. -/
def generateRecommendations (preferences : UserPreferences) (neighborhood : Neighborhood) : List String :=
  let recommendations : List String := []
  let recommendations := if neighborhood.transportation.walkabilityScore < 50 then
    recommendations ++ ["Consider getting a car or using ride-sharing services"] else recommendations
  let recommendations := if neighborhood.safety.safetyScore < 70 then
    recommendations ++ ["Research specific safety measures and local crime patterns"] else recommendations
  let lifestyle := preferences.lifestyle
  let recommendations := if lifestyle.activityLevel = "high" ∧ neighborhood.lifestyle.outdoorActivities < 50 then
    recommendations ++ ["Look for nearby parks and recreational facilities"] else recommendations
  recommendations

structure MatchingResult where
  neighborhood : Neighborhood
  compatibilityScore : Option ℤ
  matchReasons : List String
  potentialConcerns : List String
  recommendations : List String
deriving DecidableEq

/-- `generateMatchingResult`. -/
def generateMatchingResult (preferences : UserPreferences) (neighborhood : Neighborhood) : MatchingResult :=
  { neighborhood := neighborhood
    compatibilityScore := calculateCompatibility preferences neighborhood
    matchReasons := generateMatchReasons preferences neighborhood
    potentialConcerns := generatePotentialConcerns preferences neighborhood
    recommendations := generateRecommendations preferences neighborhood }

/-- Request body of `POST /api/matching`; either top-level field may be
absent (`undefined`/`null`), modelled by `none`. -/
structure MatchingRequestBody where
  preferences : Option UserPreferences
  neighborhoods : Option (List Neighborhood)
deriving DecidableEq

inductive MatchingResponse where
  | badRequest (error : String)
  | ok (data : List MatchingResult)
deriving DecidableEq

/-- The `matchingRoutes.post` handler: rejects with a 400 only when
`preferences` or `neighborhoods` is missing, otherwise maps
`generateMatchingResult` over the neighborhoods. -/
def matchingPost (body : MatchingRequestBody) : MatchingResponse :=
  match body.preferences, body.neighborhoods with
  | some preferences, some neighborhoods =>
      MatchingResponse.ok (neighborhoods.map fun n => generateMatchingResult preferences n)
  | _, _ => MatchingResponse.badRequest "Missing preferences or neighborhoods"

/-- The client page's filter state; its initial value in the source is
`safetyScore 0, walkabilityScore 0, maxCrimeRate 100, minAmenities 0`. -/
structure SelectedFilters where
  safetyScore : ℚ
  walkabilityScore : ℚ
  maxCrimeRate : ℚ
  minAmenities : ℚ
deriving DecidableEq

def defaultSelectedFilters : SelectedFilters :=
  { safetyScore := 0, walkabilityScore := 0, maxCrimeRate := 100, minAmenities := 0 }

/-- JS `String.prototype.includes`: substring test (true for the empty
pattern). -/
def jsIncludes (s sub : String) : Bool := decide (sub.toList <:+: s.toList)

/-- The `filteredNeighborhoods` expression of `NeighborhoodsPage`: keeps the
neighborhoods matching the search term and all four numeric filters. -/
def filteredNeighborhoods (neighborhoods : List Neighborhood) (searchTerm : String)
    (selectedFilters : SelectedFilters) : List Neighborhood :=
  neighborhoods.filter fun neighborhood =>
    let matchesSearch := jsIncludes neighborhood.name.toLower searchTerm.toLower ||
      (match neighborhood.location.city with
       | some city => jsIncludes city.toLower searchTerm.toLower
       | none => false)
    let matchesSafety := decide (neighborhood.safety.safetyScore ≥ selectedFilters.safetyScore)
    let matchesWalkability :=
      decide (neighborhood.transportation.walkabilityScore ≥ selectedFilters.walkabilityScore)
    let matchesCrimeRate := decide (neighborhood.safety.crimeRate ≤ selectedFilters.maxCrimeRate)
    let totalAmenities := totalAmenitiesCount neighborhood.amenities
    let matchesAmenities := decide (totalAmenities ≥ selectedFilters.minAmenities)
    matchesSearch && matchesSafety && matchesWalkability && matchesCrimeRate && matchesAmenities

/-- The value produced by `calculateAgeGroupCompatibility` whenever the JS
division is finite (total population nonzero); helper for stating theorems. -/
def ageGroupCompatibilityVal (userAgeGroup : String) (demographics : Demographics) : ℚ :=
  match userAgeGroup with
  | "young" => demographics.ageGroups.age18to34 / demographics.totalPopulation * 100
  | "family" => (demographics.ageGroups.age35to49 + demographics.ageGroups.under18) /
      demographics.totalPopulation * 100
  | "senior" => demographics.ageGroups.over65 / demographics.totalPopulation * 100
  | "mixed" => 75
  | _ => 50

/-- The value produced by `calculateLifestyleScore` whenever the total
population is nonzero. -/
def lifestyleScoreVal (preferences : UserPreferences) (neighborhood : Neighborhood) : ℚ :=
  jsRoundQ (ageGroupCompatibilityVal preferences.lifestyle.ageGroup neighborhood.demographics * 0.3 +
    calculateActivityCompatibility preferences.lifestyle.activityLevel neighborhood.lifestyle * 0.3 +
    calculateSocialCompatibility preferences.lifestyle.socialPreference neighborhood.lifestyle * 0.4)

/-- The value produced by `calculateFamilyFriendlyScore` whenever the total
population is nonzero. -/
def familyFriendlyScoreVal (preferences : UserPreferences) (neighborhood : Neighborhood) : ℚ :=
  jsRoundQ (min 25 (neighborhood.amenities.schools * 5) +
    min 25 ((neighborhood.amenities.parks + neighborhood.lifestyle.familyActivities) * 2) +
    (neighborhood.demographics.ageGroups.under18 + neighborhood.demographics.ageGroups.age35to49) /
      neighborhood.demographics.totalPopulation * 50)

/-- A priority entry that is present with a value in the nominal 1..10 range. -/
def validWeight (w : Option ℚ) : Bool :=
  match w with
  | some v => decide (1 ≤ v ∧ v ≤ 10)
  | none => false

/-- Validity of a preference record as the claims state it: budget
non-negative with min ≤ max, all eight priorities present in 1..10. -/
def ValidPreferences (p : UserPreferences) : Prop :=
  0 ≤ p.budget.min ∧ p.budget.min ≤ p.budget.max ∧
  validWeight p.priorities.safety = true ∧
  validWeight p.priorities.amenities = true ∧
  validWeight p.priorities.transportation = true ∧
  validWeight p.priorities.lifestyle = true ∧
  validWeight p.priorities.affordability = true ∧
  validWeight p.priorities.familyFriendly = true ∧
  validWeight p.priorities.nightlife = true ∧
  validWeight p.priorities.quietness = true

/-- Validity of a neighborhood record: every numeric field within the nominal
range stated by the data model. -/
def ValidNeighborhood (n : Neighborhood) : Prop :=
  0 ≤ n.demographics.totalPopulation ∧
  0 ≤ n.demographics.ageGroups.under18 ∧
  0 ≤ n.demographics.ageGroups.age18to34 ∧
  0 ≤ n.demographics.ageGroups.age35to49 ∧
  0 ≤ n.demographics.ageGroups.age50to64 ∧
  0 ≤ n.demographics.ageGroups.over65 ∧
  n.demographics.ageGroups.under18 + n.demographics.ageGroups.age18to34 +
      n.demographics.ageGroups.age35to49 + n.demographics.ageGroups.age50to64 +
      n.demographics.ageGroups.over65 ≤ n.demographics.totalPopulation ∧
  0 ≤ n.demographics.diversityIndex ∧ n.demographics.diversityIndex ≤ 100 ∧
  0 ≤ n.amenities.restaurants ∧ 0 ≤ n.amenities.cafes ∧ 0 ≤ n.amenities.bars ∧
  0 ≤ n.amenities.groceryStores ∧ 0 ≤ n.amenities.parks ∧ 0 ≤ n.amenities.gyms ∧
  0 ≤ n.amenities.schools ∧ 0 ≤ n.amenities.hospitals ∧
  0 ≤ n.amenities.shoppingCenters ∧ 0 ≤ n.amenities.entertainment ∧
  0 ≤ n.safety.crimeRate ∧
  0 ≤ n.safety.safetyScore ∧ n.safety.safetyScore ≤ 100 ∧
  0 ≤ n.transportation.walkabilityScore ∧ n.transportation.walkabilityScore ≤ 100 ∧
  0 ≤ n.transportation.transitScore ∧ n.transportation.transitScore ≤ 100 ∧
  0 ≤ n.transportation.bikeScore ∧ n.transportation.bikeScore ≤ 100 ∧
  0 ≤ n.lifestyle.nightlife ∧ n.lifestyle.nightlife ≤ 100 ∧
  0 ≤ n.lifestyle.familyActivities ∧ n.lifestyle.familyActivities ≤ 100 ∧
  0 ≤ n.lifestyle.outdoorActivities ∧ n.lifestyle.outdoorActivities ≤ 100 ∧
  0 ≤ n.lifestyle.culturalEvents ∧ n.lifestyle.culturalEvents ≤ 100 ∧
  0 ≤ n.lifestyle.communityEngagement ∧ n.lifestyle.communityEngagement ≤ 100

/-- The priorities map with every entry present and equal to 5. -/
def allFivePriorities : Priorities :=
  { safety := some 5, amenities := some 5, transportation := some 5, lifestyle := some 5,
    affordability := some 5, familyFriendly := some 5, nightlife := some 5, quietness := some 5 }

/-- Concrete neighborhood realizing the eight sub-scores
90, 60, 70, 50, 100, 40, 30, 80 of the spec's scenario B. -/
def nbhdB : Neighborhood :=
  { id := "n-b", name := "Riverside",
    location := {
      latitude := 0, longitude := 0, address := none, city := some "Springfield",
      state := none, zipCode := none },
    demographics := {
      totalPopulation := 1000, medianAge := 35, medianIncome := 100000,
      diversityIndex := 50, educationLevel := "high", familyFriendly := true,
      ageGroups := {
        under18 := 50, age18to34 := 100, age35to49 := 50, age50to64 := 100,
        over65 := 100 } },
    amenities := {
      restaurants := 2, cafes := 22, bars := 1, groceryStores := 0, parks := 0,
      gyms := 0, schools := 5, hospitals := 0, shoppingCenters := 0, entertainment := 0 },
    safety := {
      crimeRate := 50, safetyScore := 90, policeStations := 1, emergencyServices := 1,
      wellLitStreets := true },
    transportation := {
      walkabilityScore := 70, transitScore := 70, bikeScore := 70,
      publicTransitStops := 5, bikeLanes := 5, parkingAvailability := "medium" },
    lifestyle := {
      nightlife := 40, familyActivities := 5, outdoorActivities := 25,
      culturalEvents := 0, communityEngagement := 40 } }

/-- Concrete preferences with every priority weight equal to 5. -/
def prefsB : UserPreferences :=
  { id := "u-b",
    location := {
      latitude := 0, longitude := 0, address := none, city := none, state := none,
      zipCode := none },
    budget := { min := 20000, max := 60000 },
    priorities := allFivePriorities,
    lifestyle := {
      ageGroup := "mixed", activityLevel := "medium", socialPreference := "balanced",
      workStyle := "remote" },
    mustHaves := [], dealBreakers := [] }

/-- `prefsB` with the safety weight explicitly set to 0 (a falsy weight). -/
def prefsZeroSafety : UserPreferences :=
  { prefsB with priorities := { allFivePriorities with safety := some 0 } }

/-- `prefsB` with a malformed age-group enum value. -/
def prefsRobot : UserPreferences :=
  { prefsB with lifestyle := { prefsB.lifestyle with ageGroup := "robot" } }

/-- `nbhdB` with safety score 90 and crime rate 5 (the spec's scenario A). -/
def nbhdA : Neighborhood :=
  { nbhdB with safety := { nbhdB.safety with safetyScore := 90, crimeRate := 5 } }

/-- A fully valid neighborhood whose total population is zero. -/
def nbhdZeroPop : Neighborhood :=
  { id := "n-0", name := "Ghosttown",
    location := {
      latitude := 0, longitude := 0, address := none, city := none, state := none,
      zipCode := none },
    demographics := {
      totalPopulation := 0, medianAge := 30, medianIncome := 3000,
      diversityIndex := 50, educationLevel := "medium", familyFriendly := false,
      ageGroups := { under18 := 0, age18to34 := 0, age35to49 := 0, age50to64 := 0, over65 := 0 } },
    amenities := {
      restaurants := 1, cafes := 1, bars := 1, groceryStores := 1, parks := 1,
      gyms := 1, schools := 1, hospitals := 1, shoppingCenters := 1, entertainment := 1 },
    safety := {
      crimeRate := 10, safetyScore := 50, policeStations := 0, emergencyServices := 0,
      wellLitStreets := false },
    transportation := {
      walkabilityScore := 50, transitScore := 50, bikeScore := 50,
      publicTransitStops := 1, bikeLanes := 1, parkingAvailability := "high" },
    lifestyle := {
      nightlife := 50, familyActivities := 50, outdoorActivities := 50,
      culturalEvents := 50, communityEngagement := 50 } }

/-- Valid preferences whose age group divides by the total population. -/
def prefsYoung : UserPreferences :=
  { prefsB with
    budget := { min := 0, max := 1000 },
    lifestyle := {
      ageGroup := "young", activityLevel := "high", socialPreference := "extrovert",
      workStyle := "office" } }

/-- Preferences with safety weight 1 and every other weight 10. -/
def prefs6 : UserPreferences :=
  { prefsB with
    budget := { min := 0, max := 1000 },
    priorities := {
      safety := some 1, amenities := some 10, transportation := some 10,
      lifestyle := some 10, affordability := some 10, familyFriendly := some 10,
      nightlife := some 10, quietness := some 10 },
    lifestyle := {
      ageGroup := "young", activityLevel := "high", socialPreference := "extrovert",
      workStyle := "office" } }

/-- Neighborhood for the safety-monotonicity counterexample, safety score 70. -/
def nbhd6a : Neighborhood :=
  { id := "n-6", name := "Flatland",
    location := {
      latitude := 0, longitude := 0, address := none, city := none, state := none,
      zipCode := none },
    demographics := {
      totalPopulation := 1000, medianAge := 30, medianIncome := 1000000,
      diversityIndex := 50, educationLevel := "low", familyFriendly := false,
      ageGroups := { under18 := 0, age18to34 := 0, age35to49 := 0, age50to64 := 0, over65 := 0 } },
    amenities := {
      restaurants := 0, cafes := 0, bars := 0, groceryStores := 0, parks := 0,
      gyms := 0, schools := 0, hospitals := 0, shoppingCenters := 0, entertainment := 0 },
    safety := {
      crimeRate := 50, safetyScore := 70, policeStations := 0, emergencyServices := 0,
      wellLitStreets := false },
    transportation := {
      walkabilityScore := 0, transitScore := 0, bikeScore := 0,
      publicTransitStops := 0, bikeLanes := 0, parkingAvailability := "low" },
    lifestyle := {
      nightlife := 0, familyActivities := 0, outdoorActivities := 0,
      culturalEvents := 0, communityEngagement := 0 } }

/-- `nbhd6a` with the safety score raised to 95, all else identical. -/
def nbhd6b : Neighborhood :=
  { nbhd6a with safety := { nbhd6a.safety with safetyScore := 95 } }

/-- Helper building the minimal neighborhoods of the filtering scenario. -/
def mkFilterNbhd (nm : String) (restaurantCount : ℚ) : Neighborhood :=
  { id := nm, name := nm,
    location := {
      latitude := 0, longitude := 0, address := none, city := none, state := none,
      zipCode := none },
    demographics := {
      totalPopulation := 100, medianAge := 30, medianIncome := 50000,
      diversityIndex := 50, educationLevel := "high", familyFriendly := true,
      ageGroups := {
        under18 := 10, age18to34 := 10, age35to49 := 10, age50to64 := 10,
        over65 := 10 } },
    amenities := {
      restaurants := restaurantCount, cafes := 0, bars := 0, groceryStores := 0,
      parks := 0, gyms := 0, schools := 0, hospitals := 0, shoppingCenters := 0,
      entertainment := 0 },
    safety := {
      crimeRate := 20, safetyScore := 50, policeStations := 1, emergencyServices := 1,
      wellLitStreets := true },
    transportation := {
      walkabilityScore := 50, transitScore := 50, bikeScore := 50,
      publicTransitStops := 1, bikeLanes := 1, parkingAvailability := "medium" },
    lifestyle := {
      nightlife := 10, familyActivities := 10, outdoorActivities := 10,
      culturalEvents := 10, communityEngagement := 10 } }

/-- Neighborhood with total amenity count 10. -/
def nbhdAm10 : Neighborhood := mkFilterNbhd "Alpha" 10

/-- Neighborhood with total amenity count 40. -/
def nbhdAm40 : Neighborhood := mkFilterNbhd "Beta" 40

/-- Neighborhood with total amenity count 55. -/
def nbhdAm55 : Neighborhood := mkFilterNbhd "Gamma" 55

/-- The affordability rule exactly as the spec words it, for comparison with
the implementation: 100 when the estimated cost lies within the budget range,
then the 1.2 and 1.5 bands, else 20. -/
def affordabilityScoreSpec (budgetMin budgetMax income : ℚ) : ℚ :=
  let cost := income * 0.3
  if budgetMin ≤ cost ∧ cost ≤ budgetMax then 100
  else if cost ≤ budgetMax * 1.2 then 80
  else if cost ≤ budgetMax * 1.5 then 50
  else 20

/-- `prefsB` with the budget range of the spec's scenario C. -/
def prefsC : UserPreferences :=
  { prefsB with budget := { min := 40000, max := 60000 } }

/-- `nbhdB` with the median income of the spec's scenario C. -/
def nbhdC : Neighborhood :=
  { nbhdB with demographics := { nbhdB.demographics with medianIncome := 200000 } }

lemma empty_toLower : ("" : String).toLower = "" := by
  simp [String.toLower, String.map_eq]

lemma jsIncludes_empty (s : String) : jsIncludes s "" = true := by
  simp [jsIncludes]

lemma jsRound_le_int {q : ℚ} {k : ℤ} (h : q ≤ (k : ℚ)) : jsRound q ≤ k := by
  have h2 : (⌊q + 1/2⌋ : ℤ) ≤ ⌊((k : ℚ) + 1/2)⌋ := Int.floor_le_floor (by linarith)
  have h3 : ⌊((k : ℚ) + 1/2)⌋ = k + ⌊(1/2 : ℚ)⌋ := Int.floor_int_add k (1/2)
  have h4 : ⌊(1/2 : ℚ)⌋ = 0 := by norm_num
  unfold jsRound
  omega

lemma int_le_jsRound {q : ℚ} {k : ℤ} (h : (k : ℚ) ≤ q) : k ≤ jsRound q := by
  unfold jsRound
  exact Int.le_floor.mpr (by push_cast; linarith)

lemma jsRound_mono {a b : ℚ} (h : a ≤ b) : jsRound a ≤ jsRound b := by
  unfold jsRound
  exact Int.floor_le_floor (by linarith)

lemma jsRoundQ_nonneg {q : ℚ} (h : 0 ≤ q) : 0 ≤ jsRoundQ q := by
  unfold jsRoundQ
  exact_mod_cast int_le_jsRound (k := 0) (by exact_mod_cast h)

lemma jsRoundQ_le_100 {q : ℚ} (h : q ≤ 100) : jsRoundQ q ≤ 100 := by
  unfold jsRoundQ
  exact_mod_cast jsRound_le_int (k := 100) (by exact_mod_cast h)

lemma ageGroup_eq_val (s : String) (d : Demographics) (h : d.totalPopulation ≠ 0) :
    calculateAgeGroupCompatibility s d = some (ageGroupCompatibilityVal s d) := by
  unfold calculateAgeGroupCompatibility ageGroupCompatibilityVal
  split <;> simp [h]

lemma lifestyle_eq_val (p : UserPreferences) (n : Neighborhood)
    (h : n.demographics.totalPopulation ≠ 0) :
    calculateLifestyleScore p n = some (lifestyleScoreVal p n) := by
  simp only [calculateLifestyleScore, lifestyleScoreVal]
  rw [ageGroup_eq_val _ _ h]
  rfl

lemma family_eq_val (p : UserPreferences) (n : Neighborhood)
    (h : n.demographics.totalPopulation ≠ 0) :
    calculateFamilyFriendlyScore p n = some (familyFriendlyScoreVal p n) := by
  unfold calculateFamilyFriendlyScore familyFriendlyScoreVal
  simp [h]

lemma calculateCompatibility_eq_some (p : UserPreferences) (n : Neighborhood)
    (hpop : n.demographics.totalPopulation ≠ 0) (hT : rawWeightTotal p.priorities ≠ 0) :
    calculateCompatibility p n = some (jsRound (
      calculateSafetyScore p n * weightOrDefault p.priorities.safety / rawWeightTotal p.priorities +
      calculateAmenitiesScore p n * weightOrDefault p.priorities.amenities / rawWeightTotal p.priorities +
      calculateTransportationScore p n * weightOrDefault p.priorities.transportation / rawWeightTotal p.priorities +
      lifestyleScoreVal p n * weightOrDefault p.priorities.lifestyle / rawWeightTotal p.priorities +
      calculateAffordabilityScore p n * weightOrDefault p.priorities.affordability / rawWeightTotal p.priorities +
      familyFriendlyScoreVal p n * weightOrDefault p.priorities.familyFriendly / rawWeightTotal p.priorities +
      calculateNightlifeScore p n * weightOrDefault p.priorities.nightlife / rawWeightTotal p.priorities +
      calculateQuietnessScore p n * weightOrDefault p.priorities.quietness / rawWeightTotal p.priorities)) := by
  unfold calculateCompatibility
  rw [lifestyle_eq_val p n hpop, family_eq_val p n hpop]
  simp [hT]

lemma validWeight_facts {w : Option ℚ} (h : validWeight w = true) :
    1 ≤ weightOrDefault w ∧ weightOrDefault w ≤ 10 ∧ w.getD 0 = weightOrDefault w := by
  cases w with
  | none => simp [validWeight] at h
  | some v =>
    simp only [validWeight, decide_eq_true_eq] at h
    obtain ⟨h1, h2⟩ := h
    have hv : ¬v = 0 := by intro hv0; rw [hv0] at h1; norm_num at h1
    simp only [weightOrDefault, Option.getD, if_neg hv]
    exact ⟨h1, h2, trivial⟩

lemma safety_bounds (p : UserPreferences) (n : Neighborhood)
    (h0 : 0 ≤ n.safety.safetyScore) :
    0 ≤ calculateSafetyScore p n ∧ calculateSafetyScore p n ≤ 100 := by
  unfold calculateSafetyScore MAX_SCORE
  constructor
  · have hm : (0 : ℚ) ≤ max 0 ((50 - n.safety.crimeRate) / 50) := le_max_left _ _
    have hm10 : (0 : ℚ) ≤ max 0 ((50 - n.safety.crimeRate) / 50) * 10 := by positivity
    exact le_min (by norm_num) (by linarith)
  · exact min_le_left _ _

lemma amenities_bounds (p : UserPreferences) (n : Neighborhood)
    (h0 : 0 ≤ totalAmenitiesCount n.amenities) :
    0 ≤ calculateAmenitiesScore p n ∧ calculateAmenitiesScore p n ≤ 100 := by
  unfold calculateAmenitiesScore
  constructor
  · exact le_min (by norm_num) (by positivity)
  · exact min_le_left _ _

lemma transportation_bounds (p : UserPreferences) (n : Neighborhood)
    (h1 : 0 ≤ n.transportation.walkabilityScore) (h2 : n.transportation.walkabilityScore ≤ 100)
    (h3 : 0 ≤ n.transportation.transitScore) (h4 : n.transportation.transitScore ≤ 100)
    (h5 : 0 ≤ n.transportation.bikeScore) (h6 : n.transportation.bikeScore ≤ 100) :
    0 ≤ calculateTransportationScore p n ∧ calculateTransportationScore p n ≤ 100 := by
  unfold calculateTransportationScore
  exact ⟨jsRoundQ_nonneg (by linarith), jsRoundQ_le_100 (by linarith)⟩

lemma activity_bounds (s : String) (l : LifestyleMetrics)
    (h1 : 0 ≤ l.outdoorActivities) (h2 : l.outdoorActivities ≤ 100)
    (h3 : 0 ≤ l.culturalEvents) (h4 : l.culturalEvents ≤ 100) :
    0 ≤ calculateActivityCompatibility s l ∧ calculateActivityCompatibility s l ≤ 100 := by
  unfold calculateActivityCompatibility
  split
  · exact ⟨jsRoundQ_nonneg (by linarith), jsRoundQ_le_100 (by linarith)⟩
  · exact ⟨jsRoundQ_nonneg (by linarith), jsRoundQ_le_100 (by linarith)⟩
  · exact ⟨jsRoundQ_nonneg (by linarith), jsRoundQ_le_100 (by linarith)⟩
  · norm_num

lemma social_bounds (s : String) (l : LifestyleMetrics)
    (h1 : 0 ≤ l.communityEngagement) (h2 : l.communityEngagement ≤ 100)
    (h3 : 0 ≤ l.nightlife) (h4 : l.nightlife ≤ 100) :
    0 ≤ calculateSocialCompatibility s l ∧ calculateSocialCompatibility s l ≤ 100 := by
  unfold calculateSocialCompatibility
  split
  · exact ⟨jsRoundQ_nonneg (by linarith), jsRoundQ_le_100 (by linarith)⟩
  · exact ⟨jsRoundQ_nonneg (by linarith), jsRoundQ_le_100 (by linarith)⟩
  · exact ⟨jsRoundQ_nonneg (by linarith), jsRoundQ_le_100 (by linarith)⟩
  · norm_num

lemma ageVal_bounds (s : String) (d : Demographics)
    (hpop : 0 < d.totalPopulation)
    (hu : 0 ≤ d.ageGroups.under18) (hy : 0 ≤ d.ageGroups.age18to34)
    (hf : 0 ≤ d.ageGroups.age35to49) (hm : 0 ≤ d.ageGroups.age50to64)
    (ho : 0 ≤ d.ageGroups.over65)
    (hsum : d.ageGroups.under18 + d.ageGroups.age18to34 + d.ageGroups.age35to49 +
      d.ageGroups.age50to64 + d.ageGroups.over65 ≤ d.totalPopulation) :
    0 ≤ ageGroupCompatibilityVal s d ∧ ageGroupCompatibilityVal s d ≤ 100 := by
  have hb : ∀ x : ℚ, 0 ≤ x → x ≤ d.totalPopulation →
      0 ≤ x / d.totalPopulation * 100 ∧ x / d.totalPopulation * 100 ≤ 100 := by
    intro x hx hxle
    have h1 : x / d.totalPopulation ≤ 1 := (div_le_one hpop).mpr hxle
    have h2 : 0 ≤ x / d.totalPopulation := div_nonneg hx (le_of_lt hpop)
    constructor
    · positivity
    · nlinarith
  unfold ageGroupCompatibilityVal
  split
  · exact hb _ hy (by linarith)
  · exact hb _ (by linarith) (by linarith)
  · exact hb _ ho (by linarith)
  · norm_num
  · norm_num

lemma lifestyleVal_bounds (p : UserPreferences) (n : Neighborhood)
    (hpop : 0 < n.demographics.totalPopulation)
    (hu : 0 ≤ n.demographics.ageGroups.under18) (hy : 0 ≤ n.demographics.ageGroups.age18to34)
    (hf : 0 ≤ n.demographics.ageGroups.age35to49) (hm : 0 ≤ n.demographics.ageGroups.age50to64)
    (ho : 0 ≤ n.demographics.ageGroups.over65)
    (hsum : n.demographics.ageGroups.under18 + n.demographics.ageGroups.age18to34 +
      n.demographics.ageGroups.age35to49 + n.demographics.ageGroups.age50to64 +
      n.demographics.ageGroups.over65 ≤ n.demographics.totalPopulation)
    (h1 : 0 ≤ n.lifestyle.outdoorActivities) (h2 : n.lifestyle.outdoorActivities ≤ 100)
    (h3 : 0 ≤ n.lifestyle.culturalEvents) (h4 : n.lifestyle.culturalEvents ≤ 100)
    (h5 : 0 ≤ n.lifestyle.communityEngagement) (h6 : n.lifestyle.communityEngagement ≤ 100)
    (h7 : 0 ≤ n.lifestyle.nightlife) (h8 : n.lifestyle.nightlife ≤ 100) :
    0 ≤ lifestyleScoreVal p n ∧ lifestyleScoreVal p n ≤ 100 := by
  obtain ⟨ha1, ha2⟩ := ageVal_bounds p.lifestyle.ageGroup n.demographics hpop hu hy hf hm ho hsum
  obtain ⟨hb1, hb2⟩ := activity_bounds p.lifestyle.activityLevel n.lifestyle h1 h2 h3 h4
  obtain ⟨hc1, hc2⟩ := social_bounds p.lifestyle.socialPreference n.lifestyle h5 h6 h7 h8
  unfold lifestyleScoreVal
  exact ⟨jsRoundQ_nonneg (by linarith), jsRoundQ_le_100 (by linarith)⟩

lemma familyVal_bounds (p : UserPreferences) (n : Neighborhood)
    (hpop : 0 < n.demographics.totalPopulation)
    (hu : 0 ≤ n.demographics.ageGroups.under18)
    (hf : 0 ≤ n.demographics.ageGroups.age35to49)
    (hm : 0 ≤ n.demographics.ageGroups.age50to64)
    (hy : 0 ≤ n.demographics.ageGroups.age18to34)
    (ho : 0 ≤ n.demographics.ageGroups.over65)
    (hsum : n.demographics.ageGroups.under18 + n.demographics.ageGroups.age18to34 +
      n.demographics.ageGroups.age35to49 + n.demographics.ageGroups.age50to64 +
      n.demographics.ageGroups.over65 ≤ n.demographics.totalPopulation)
    (hs : 0 ≤ n.amenities.schools) (hp : 0 ≤ n.amenities.parks)
    (hfa : 0 ≤ n.lifestyle.familyActivities) :
    0 ≤ familyFriendlyScoreVal p n ∧ familyFriendlyScoreVal p n ≤ 100 := by
  have hterm1a : (0 : ℚ) ≤ min 25 (n.amenities.schools * 5) :=
    le_min (by norm_num) (by positivity)
  have hterm1b : min (25 : ℚ) (n.amenities.schools * 5) ≤ 25 := min_le_left _ _
  have hterm2a : (0 : ℚ) ≤ min 25 ((n.amenities.parks + n.lifestyle.familyActivities) * 2) :=
    le_min (by norm_num) (by positivity)
  have hterm2b : min (25 : ℚ) ((n.amenities.parks + n.lifestyle.familyActivities) * 2) ≤ 25 :=
    min_le_left _ _
  have hfrac1 : (0 : ℚ) ≤ (n.demographics.ageGroups.under18 + n.demographics.ageGroups.age35to49) /
      n.demographics.totalPopulation := div_nonneg (by linarith) (le_of_lt hpop)
  have hfrac2 : (n.demographics.ageGroups.under18 + n.demographics.ageGroups.age35to49) /
      n.demographics.totalPopulation ≤ 1 := (div_le_one hpop).mpr (by linarith)
  unfold familyFriendlyScoreVal
  exact ⟨jsRoundQ_nonneg (by nlinarith), jsRoundQ_le_100 (by nlinarith)⟩

lemma nightlife_bounds (p : UserPreferences) (n : Neighborhood)
    (hb : 0 ≤ n.amenities.bars) (hr : 0 ≤ n.amenities.restaurants)
    (h1 : 0 ≤ n.lifestyle.nightlife) (h2 : n.lifestyle.nightlife ≤ 100) :
    0 ≤ calculateNightlifeScore p n ∧ calculateNightlifeScore p n ≤ 100 := by
  have ht1 : (0 : ℚ) ≤ min 40 ((n.amenities.bars + n.amenities.restaurants) * 2) :=
    le_min (by norm_num) (by positivity)
  have ht2 : min (40 : ℚ) ((n.amenities.bars + n.amenities.restaurants) * 2) ≤ 40 :=
    min_le_left _ _
  unfold calculateNightlifeScore
  exact ⟨jsRoundQ_nonneg (by nlinarith), jsRoundQ_le_100 (by nlinarith)⟩

lemma quietness_bounds (p : UserPreferences) (n : Neighborhood)
    (h1 : 0 ≤ n.lifestyle.nightlife) (h2 : 0 ≤ n.amenities.entertainment) :
    0 ≤ calculateQuietnessScore p n ∧ calculateQuietnessScore p n ≤ 100 := by
  unfold calculateQuietnessScore
  constructor
  · exact jsRoundQ_nonneg (le_max_left _ _)
  · exact jsRoundQ_le_100 (max_le (by norm_num) (by linarith))

lemma affordability_bounds (p : UserPreferences) (n : Neighborhood) :
    0 ≤ calculateAffordabilityScore p n ∧ calculateAffordabilityScore p n ≤ 100 := by
  simp only [calculateAffordabilityScore]
  split_ifs <;> norm_num

lemma weightedSum_bounds (a b c d e f g i u v w x y z r t T : ℚ)
    (hT : 0 < T) (hTeq : T = u + v + w + x + y + z + r + t)
    (hu : 0 ≤ u) (hv : 0 ≤ v) (hw : 0 ≤ w) (hx : 0 ≤ x)
    (hy : 0 ≤ y) (hz : 0 ≤ z) (hr : 0 ≤ r) (ht : 0 ≤ t)
    (ha : 0 ≤ a) (ha2 : a ≤ 100) (hb : 0 ≤ b) (hb2 : b ≤ 100)
    (hc : 0 ≤ c) (hc2 : c ≤ 100) (hd : 0 ≤ d) (hd2 : d ≤ 100)
    (he : 0 ≤ e) (he2 : e ≤ 100) (hf : 0 ≤ f) (hf2 : f ≤ 100)
    (hg : 0 ≤ g) (hg2 : g ≤ 100) (hi : 0 ≤ i) (hi2 : i ≤ 100) :
    0 ≤ a*u/T + b*v/T + c*w/T + d*x/T + e*y/T + f*z/T + g*r/T + i*t/T ∧
    a*u/T + b*v/T + c*w/T + d*x/T + e*y/T + f*z/T + g*r/T + i*t/T ≤ 100 := by
  have key1 : 0 ≤ a*u + b*v + c*w + d*x + e*y + f*z + g*r + i*t := by positivity
  have m1 : a*u ≤ 100*u := mul_le_mul_of_nonneg_right ha2 hu
  have m2 : b*v ≤ 100*v := mul_le_mul_of_nonneg_right hb2 hv
  have m3 : c*w ≤ 100*w := mul_le_mul_of_nonneg_right hc2 hw
  have m4 : d*x ≤ 100*x := mul_le_mul_of_nonneg_right hd2 hx
  have m5 : e*y ≤ 100*y := mul_le_mul_of_nonneg_right he2 hy
  have m6 : f*z ≤ 100*z := mul_le_mul_of_nonneg_right hf2 hz
  have m7 : g*r ≤ 100*r := mul_le_mul_of_nonneg_right hg2 hr
  have m8 : i*t ≤ 100*t := mul_le_mul_of_nonneg_right hi2 ht
  have key2 : a*u + b*v + c*w + d*x + e*y + f*z + g*r + i*t ≤ 100*T := by
    rw [hTeq]; linarith
  constructor
  · calc (0:ℚ) ≤ (a*u + b*v + c*w + d*x + e*y + f*z + g*r + i*t)/T :=
        div_nonneg key1 (le_of_lt hT)
      _ = a*u/T + b*v/T + c*w/T + d*x/T + e*y/T + f*z/T + g*r/T + i*t/T := by ring
  · calc a*u/T + b*v/T + c*w/T + d*x/T + e*y/T + f*z/T + g*r/T + i*t/T
        = (a*u + b*v + c*w + d*x + e*y + f*z + g*r + i*t)/T := by ring
      _ ≤ 100 := by rw [div_le_iff₀ hT]; linarith

/-- C1 (amended): for every pair with a finite result (nonzero population,
nonzero raw total weight), the overall score equals
round(Σ sub-score·defaulted-weight / totalWeight), where each numerator
weight is defaulted to 5 when absent or falsy but `totalWeight` is the raw
sum of the priorities as supplied, with no defaulting. -/
theorem claim1_aggregate_formula (p : UserPreferences) (n : Neighborhood)
    (hpop : n.demographics.totalPopulation ≠ 0)
    (hT : rawWeightTotal p.priorities ≠ 0) :
    calculateCompatibility p n = some (jsRound (
      (calculateSafetyScore p n * weightOrDefault p.priorities.safety +
       calculateAmenitiesScore p n * weightOrDefault p.priorities.amenities +
       calculateTransportationScore p n * weightOrDefault p.priorities.transportation +
       lifestyleScoreVal p n * weightOrDefault p.priorities.lifestyle +
       calculateAffordabilityScore p n * weightOrDefault p.priorities.affordability +
       familyFriendlyScoreVal p n * weightOrDefault p.priorities.familyFriendly +
       calculateNightlifeScore p n * weightOrDefault p.priorities.nightlife +
       calculateQuietnessScore p n * weightOrDefault p.priorities.quietness) /
      rawWeightTotal p.priorities)) := by
  rw [calculateCompatibility_eq_some p n hpop hT]
  exact congrArg (fun q => some (jsRound q)) (by ring)

/-- Witness for C1 at a concrete input whose safety weight is a falsy 0. -/
theorem claim1_aggregate_formula_witness :
    calculateCompatibility prefsZeroSafety nbhdB = some (jsRound (
      (calculateSafetyScore prefsZeroSafety nbhdB * weightOrDefault prefsZeroSafety.priorities.safety +
       calculateAmenitiesScore prefsZeroSafety nbhdB * weightOrDefault prefsZeroSafety.priorities.amenities +
       calculateTransportationScore prefsZeroSafety nbhdB * weightOrDefault prefsZeroSafety.priorities.transportation +
       lifestyleScoreVal prefsZeroSafety nbhdB * weightOrDefault prefsZeroSafety.priorities.lifestyle +
       calculateAffordabilityScore prefsZeroSafety nbhdB * weightOrDefault prefsZeroSafety.priorities.affordability +
       familyFriendlyScoreVal prefsZeroSafety nbhdB * weightOrDefault prefsZeroSafety.priorities.familyFriendly +
       calculateNightlifeScore prefsZeroSafety nbhdB * weightOrDefault prefsZeroSafety.priorities.nightlife +
       calculateQuietnessScore prefsZeroSafety nbhdB * weightOrDefault prefsZeroSafety.priorities.quietness) /
      rawWeightTotal prefsZeroSafety.priorities)) :=
  claim1_aggregate_formula prefsZeroSafety nbhdB (by norm_num [nbhdB])
    (by norm_num [rawWeightTotal, prefsZeroSafety, prefsB, allFivePriorities])

/-- C1 counterexample: at a pair whose safety weight is present but 0, the
code divides by the raw weight total 35 and returns 74, while the claim's
formula (totalWeight = sum of defaulted weights = 40) predicts 65. -/
theorem claim1_counterexample :
    prefsZeroSafety.priorities.safety = some 0 ∧
    calculateSafetyScore prefsZeroSafety nbhdB = 90 ∧
    calculateAmenitiesScore prefsZeroSafety nbhdB = 60 ∧
    calculateTransportationScore prefsZeroSafety nbhdB = 70 ∧
    calculateLifestyleScore prefsZeroSafety nbhdB = some 50 ∧
    calculateAffordabilityScore prefsZeroSafety nbhdB = 100 ∧
    calculateFamilyFriendlyScore prefsZeroSafety nbhdB = some 40 ∧
    calculateNightlifeScore prefsZeroSafety nbhdB = 30 ∧
    calculateQuietnessScore prefsZeroSafety nbhdB = 80 ∧
    calculateCompatibility prefsZeroSafety nbhdB = some 74 ∧
    jsRound ((90 * 5 + 60 * 5 + 70 * 5 + 50 * 5 + 100 * 5 + 40 * 5 + 30 * 5 + 80 * 5) /
      (5 + 5 + 5 + 5 + 5 + 5 + 5 + 5) : ℚ) = 65 ∧
    (74 : ℤ) ≠ 65 := by
  refine ⟨rfl, ?_, ?_, ?_, ?_, ?_, ?_, ?_, ?_, ?_, ?_, by norm_num⟩
  · norm_num [calculateSafetyScore, MAX_SCORE, prefsZeroSafety, prefsB, nbhdB, min_def, max_def]
  · norm_num [calculateAmenitiesScore, totalAmenitiesCount, prefsZeroSafety, prefsB, nbhdB, min_def]
  · norm_num [calculateTransportationScore, prefsZeroSafety, prefsB, nbhdB, jsRoundQ, jsRound]
  · norm_num [calculateLifestyleScore, calculateAgeGroupCompatibility,
      calculateActivityCompatibility, calculateSocialCompatibility,
      prefsZeroSafety, prefsB, nbhdB, jsRoundQ, jsRound]
  · norm_num [calculateAffordabilityScore, prefsZeroSafety, prefsB, nbhdB]
  · norm_num [calculateFamilyFriendlyScore, prefsZeroSafety, prefsB, nbhdB, jsRoundQ, jsRound,
      min_def]
  · norm_num [calculateNightlifeScore, prefsZeroSafety, prefsB, nbhdB, jsRoundQ, jsRound, min_def]
  · norm_num [calculateQuietnessScore, prefsZeroSafety, prefsB, nbhdB, jsRoundQ, jsRound, max_def]
  · norm_num [calculateCompatibility, calculateLifestyleScore, calculateFamilyFriendlyScore,
      calculateAgeGroupCompatibility, calculateActivityCompatibility, calculateSocialCompatibility,
      calculateSafetyScore, calculateAmenitiesScore, calculateTransportationScore,
      calculateAffordabilityScore, calculateNightlifeScore, calculateQuietnessScore,
      totalAmenitiesCount, rawWeightTotal, weightOrDefault, allFivePriorities,
      MAX_SCORE, prefsZeroSafety, prefsB, nbhdB, jsRoundQ, jsRound, min_def, max_def]
  · norm_num [jsRound]

/-- C4 (amended): with all eight priorities present and equal to 5, the
overall score is the rounded unweighted mean of the eight sub-scores; for the
sub-scores 90, 60, 70, 50, 100, 40, 30, 80 that mean is 65 (not 60: the sum
is 520). -/
theorem claim4_uniform_weights_mean (p : UserPreferences) (n : Neighborhood)
    (h5 : p.priorities = allFivePriorities)
    (hpop : n.demographics.totalPopulation ≠ 0) :
    calculateCompatibility p n = some (jsRound (
      (calculateSafetyScore p n + calculateAmenitiesScore p n +
       calculateTransportationScore p n + lifestyleScoreVal p n +
       calculateAffordabilityScore p n + familyFriendlyScoreVal p n +
       calculateNightlifeScore p n + calculateQuietnessScore p n) / 8)) := by
  have hT : rawWeightTotal p.priorities ≠ 0 := by
    rw [h5]; norm_num [rawWeightTotal, allFivePriorities]
  rw [calculateCompatibility_eq_some p n hpop hT, h5]
  have hw : weightOrDefault (some 5 : Option ℚ) = 5 := by norm_num [weightOrDefault]
  have ht : rawWeightTotal allFivePriorities = 40 := by
    norm_num [rawWeightTotal, allFivePriorities]
  simp only [allFivePriorities] at hw ht ⊢
  rw [hw, ht]
  exact congrArg (fun q => some (jsRound q)) (by ring)

/-- Witness for C4 at the uniform-weight concrete pair. -/
theorem claim4_uniform_weights_mean_witness :
    calculateCompatibility prefsB nbhdB = some (jsRound (
      (calculateSafetyScore prefsB nbhdB + calculateAmenitiesScore prefsB nbhdB +
       calculateTransportationScore prefsB nbhdB + lifestyleScoreVal prefsB nbhdB +
       calculateAffordabilityScore prefsB nbhdB + familyFriendlyScoreVal prefsB nbhdB +
       calculateNightlifeScore prefsB nbhdB + calculateQuietnessScore prefsB nbhdB) / 8)) :=
  claim4_uniform_weights_mean prefsB nbhdB rfl (by norm_num [nbhdB])

/-- C4 counterexample: the scenario's eight sub-scores are realized exactly,
yet the aggregate is 65, not the claimed 60. -/
theorem claim4_counterexample :
    prefsB.priorities = allFivePriorities ∧
    calculateSafetyScore prefsB nbhdB = 90 ∧
    calculateAmenitiesScore prefsB nbhdB = 60 ∧
    calculateTransportationScore prefsB nbhdB = 70 ∧
    calculateLifestyleScore prefsB nbhdB = some 50 ∧
    calculateAffordabilityScore prefsB nbhdB = 100 ∧
    calculateFamilyFriendlyScore prefsB nbhdB = some 40 ∧
    calculateNightlifeScore prefsB nbhdB = 30 ∧
    calculateQuietnessScore prefsB nbhdB = 80 ∧
    calculateCompatibility prefsB nbhdB = some 65 ∧
    ¬calculateCompatibility prefsB nbhdB = some 60 := by
  refine ⟨rfl, ?_, ?_, ?_, ?_, ?_, ?_, ?_, ?_, ?_, ?_⟩
  · norm_num [calculateSafetyScore, MAX_SCORE, prefsB, nbhdB, min_def, max_def]
  · norm_num [calculateAmenitiesScore, totalAmenitiesCount, prefsB, nbhdB, min_def]
  · norm_num [calculateTransportationScore, prefsB, nbhdB, jsRoundQ, jsRound]
  · norm_num [calculateLifestyleScore, calculateAgeGroupCompatibility,
      calculateActivityCompatibility, calculateSocialCompatibility,
      prefsB, nbhdB, jsRoundQ, jsRound]
  · norm_num [calculateAffordabilityScore, prefsB, nbhdB]
  · norm_num [calculateFamilyFriendlyScore, prefsB, nbhdB, jsRoundQ, jsRound, min_def]
  · norm_num [calculateNightlifeScore, prefsB, nbhdB, jsRoundQ, jsRound, min_def]
  · norm_num [calculateQuietnessScore, prefsB, nbhdB, jsRoundQ, jsRound, max_def]
  · norm_num [calculateCompatibility, calculateLifestyleScore, calculateFamilyFriendlyScore,
      calculateAgeGroupCompatibility, calculateActivityCompatibility, calculateSocialCompatibility,
      calculateSafetyScore, calculateAmenitiesScore, calculateTransportationScore,
      calculateAffordabilityScore, calculateNightlifeScore, calculateQuietnessScore,
      totalAmenitiesCount, rawWeightTotal, weightOrDefault, allFivePriorities,
      MAX_SCORE, prefsB, nbhdB, jsRoundQ, jsRound, min_def, max_def]
  · norm_num [calculateCompatibility, calculateLifestyleScore, calculateFamilyFriendlyScore,
      calculateAgeGroupCompatibility, calculateActivityCompatibility, calculateSocialCompatibility,
      calculateSafetyScore, calculateAmenitiesScore, calculateTransportationScore,
      calculateAffordabilityScore, calculateNightlifeScore, calculateQuietnessScore,
      totalAmenitiesCount, rawWeightTotal, weightOrDefault, allFivePriorities,
      MAX_SCORE, prefsB, nbhdB, jsRoundQ, jsRound, min_def, max_def]

/-- C5 (confirmed): the safety sub-score is exactly
min(100, safetyScore + max(0, (50 − crimeRate)/50)·10), and at
safetyScore = 90, crimeRate = 5 it equals 99 for any preferences. -/
theorem claim5_safety_formula (p : UserPreferences) (n : Neighborhood) :
    calculateSafetyScore p n =
      min 100 (n.safety.safetyScore + max 0 ((50 - n.safety.crimeRate) / 50) * 10) ∧
    (n.safety.safetyScore = 90 → n.safety.crimeRate = 5 → calculateSafetyScore p n = 99) := by
  constructor
  · rfl
  · intro h1 h2
    simp only [calculateSafetyScore, MAX_SCORE, h1, h2]
    norm_num [min_def, max_def]

/-- Witness for C5 at the scenario-A neighborhood. -/
theorem claim5_safety_formula_witness : calculateSafetyScore prefsB nbhdA = 99 :=
  (claim5_safety_formula prefsB nbhdA).2 rfl rfl

/-- C7 (confirmed): the affordability sub-score follows the spec's banded
rule exactly, and at medianIncome = 200000 with budget [40000, 60000] the
estimated cost 60000 equals budget.max and the score is 100. -/
theorem claim7_affordability (p : UserPreferences) (n : Neighborhood) :
    calculateAffordabilityScore p n =
      affordabilityScoreSpec p.budget.min p.budget.max n.demographics.medianIncome ∧
    (n.demographics.medianIncome = 200000 → p.budget.min = 40000 → p.budget.max = 60000 →
      calculateAffordabilityScore p n = 100) := by
  constructor
  · simp only [calculateAffordabilityScore, affordabilityScoreSpec]
    split_ifs with a b c d e f g <;> first | rfl | (exfalso; simp only [ge_iff_le] at *; tauto)
  · intro h1 h2 h3
    simp only [calculateAffordabilityScore, h1, h2, h3]
    norm_num

/-- Witness for C7 at the scenario-C concrete pair. -/
theorem claim7_affordability_witness : calculateAffordabilityScore prefsC nbhdC = 100 :=
  (claim7_affordability prefsC nbhdC).2 rfl rfl rfl

/-- C2 (amended): for every valid pair whose total population is positive,
the overall compatibility score is a well-defined integer in [0, 100].
(With a zero population — still nominally valid — the code's result is
non-finite, see the counterexample.) -/
theorem claim2_score_in_range (p : UserPreferences) (n : Neighborhood)
    (hp : ValidPreferences p) (hn : ValidNeighborhood n)
    (hpop : 0 < n.demographics.totalPopulation) :
    ∃ k : ℤ, calculateCompatibility p n = some k ∧ 0 ≤ k ∧ k ≤ 100 := by
  obtain ⟨hbmin, hbminmax, hw1, hw2, hw3, hw4, hw5, hw6, hw7, hw8⟩ := hp
  obtain ⟨hn1, hn2, hn3, hn4, hn5, hn6, hn7, hd1, hd2,
    ha1, ha2, ha3, ha4, ha5, ha6, ha7, ha8, ha9, ha10,
    hc1, hs1, hs2, ht1, ht2, ht3, ht4, ht5, ht6,
    hl1, hl2, hl3, hl4, hl5, hl6, hl7, hl8, hl9, hl10⟩ := hn
  obtain ⟨q1a, q1b, q1c⟩ := validWeight_facts hw1
  obtain ⟨q2a, q2b, q2c⟩ := validWeight_facts hw2
  obtain ⟨q3a, q3b, q3c⟩ := validWeight_facts hw3
  obtain ⟨q4a, q4b, q4c⟩ := validWeight_facts hw4
  obtain ⟨q5a, q5b, q5c⟩ := validWeight_facts hw5
  obtain ⟨q6a, q6b, q6c⟩ := validWeight_facts hw6
  obtain ⟨q7a, q7b, q7c⟩ := validWeight_facts hw7
  obtain ⟨q8a, q8b, q8c⟩ := validWeight_facts hw8
  have hTeq : rawWeightTotal p.priorities =
      weightOrDefault p.priorities.safety + weightOrDefault p.priorities.amenities +
      weightOrDefault p.priorities.transportation + weightOrDefault p.priorities.lifestyle +
      weightOrDefault p.priorities.affordability + weightOrDefault p.priorities.familyFriendly +
      weightOrDefault p.priorities.nightlife + weightOrDefault p.priorities.quietness := by
    unfold rawWeightTotal
    rw [q1c, q2c, q3c, q4c, q5c, q6c, q7c, q8c]
  have hTpos : 0 < rawWeightTotal p.priorities := by rw [hTeq]; linarith
  obtain ⟨s1a, s1b⟩ := safety_bounds p n hs1
  obtain ⟨s2a, s2b⟩ := amenities_bounds p n (by unfold totalAmenitiesCount; linarith)
  obtain ⟨s3a, s3b⟩ := transportation_bounds p n ht1 ht2 ht3 ht4 ht5 ht6
  obtain ⟨s4a, s4b⟩ :=
    lifestyleVal_bounds p n hpop hn2 hn3 hn4 hn5 hn6 hn7 hl5 hl6 hl7 hl8 hl9 hl10 hl1 hl2
  obtain ⟨s5a, s5b⟩ := affordability_bounds p n
  obtain ⟨s6a, s6b⟩ := familyVal_bounds p n hpop hn2 hn4 hn5 hn3 hn6 hn7 ha7 ha5 hl3
  obtain ⟨s7a, s7b⟩ := nightlife_bounds p n ha3 ha1 hl1 hl2
  obtain ⟨s8a, s8b⟩ := quietness_bounds p n hl1 ha10
  obtain ⟨hlow, hhigh⟩ := weightedSum_bounds
    (calculateSafetyScore p n) (calculateAmenitiesScore p n) (calculateTransportationScore p n)
    (lifestyleScoreVal p n) (calculateAffordabilityScore p n) (familyFriendlyScoreVal p n)
    (calculateNightlifeScore p n) (calculateQuietnessScore p n)
    (weightOrDefault p.priorities.safety) (weightOrDefault p.priorities.amenities)
    (weightOrDefault p.priorities.transportation) (weightOrDefault p.priorities.lifestyle)
    (weightOrDefault p.priorities.affordability) (weightOrDefault p.priorities.familyFriendly)
    (weightOrDefault p.priorities.nightlife) (weightOrDefault p.priorities.quietness)
    (rawWeightTotal p.priorities) hTpos hTeq
    (by linarith) (by linarith) (by linarith) (by linarith)
    (by linarith) (by linarith) (by linarith) (by linarith)
    s1a s1b s2a s2b s3a s3b s4a s4b s5a s5b s6a s6b s7a s7b s8a s8b
  rw [calculateCompatibility_eq_some p n (ne_of_gt hpop) (ne_of_gt hTpos)]
  refine ⟨_, rfl, ?_, ?_⟩
  · exact int_le_jsRound (by push_cast; linarith)
  · exact jsRound_le_int (by push_cast; linarith)

/-- Witness for C2 at a concrete valid pair. -/
theorem claim2_score_in_range_witness :
    ∃ k : ℤ, calculateCompatibility prefsB nbhdB = some k ∧ 0 ≤ k ∧ k ≤ 100 :=
  claim2_score_in_range prefsB nbhdB
    (by norm_num [ValidPreferences, validWeight, prefsB, allFivePriorities])
    (by norm_num [ValidNeighborhood, nbhdB])
    (by norm_num [nbhdB])

/-- C2 counterexample: a pair that satisfies every nominal range of the data
model (total population 0 is nominally valid) on which the code's score is a
non-finite JS number, not an integer in [0, 100]. -/
theorem claim2_counterexample :
    ValidPreferences prefsYoung ∧ ValidNeighborhood nbhdZeroPop ∧
    calculateCompatibility prefsYoung nbhdZeroPop = none := by
  refine ⟨?_, ?_, ?_⟩
  · norm_num [ValidPreferences, validWeight, prefsYoung, prefsB, allFivePriorities]
  · norm_num [ValidNeighborhood, nbhdZeroPop]
  · norm_num [calculateCompatibility, calculateLifestyleScore, calculateFamilyFriendlyScore,
      calculateAgeGroupCompatibility, prefsYoung, prefsB, nbhdZeroPop]

/-- C3 (code_bug): the code has no zero-population guard.  On a valid
zero-population neighborhood the population divisions are non-finite
(`0/0` is JS `NaN`), so the age-group compatibility, the family-friendliness
score and the overall compatibility are all non-finite rather than 0. -/
theorem claim3_zero_population :
    nbhdZeroPop.demographics.totalPopulation = 0 ∧
    calculateAgeGroupCompatibility "young" nbhdZeroPop.demographics = none ∧
    calculateAgeGroupCompatibility "family" nbhdZeroPop.demographics = none ∧
    calculateAgeGroupCompatibility "senior" nbhdZeroPop.demographics = none ∧
    calculateFamilyFriendlyScore prefsYoung nbhdZeroPop = none ∧
    calculateCompatibility prefsYoung nbhdZeroPop = none := by
  refine ⟨rfl, ?_, ?_, ?_, ?_, ?_⟩ <;>
    norm_num [calculateAgeGroupCompatibility, calculateFamilyFriendlyScore,
      calculateCompatibility, calculateLifestyleScore, prefsYoung, prefsB, nbhdZeroPop]

/-- C6 (amended): raising the safety score from 70 to 95 with everything else
fixed strictly increases the safety sub-score (for nominal crime rate ≥ 0);
with a positive safety weight, positive total weight and nonzero population
the overall compatibility score increases weakly — but not necessarily
strictly, since rounding can absorb the weighted difference (see the
counterexample). -/
theorem claim6_safety_monotonicity (p : UserPreferences) (m n : Neighborhood)
    (h70 : m.safety.safetyScore = 70)
    (heq : n = { m with safety := { m.safety with safetyScore := 95 } })
    (hcr : 0 ≤ m.safety.crimeRate)
    (hw : 0 < weightOrDefault p.priorities.safety)
    (hT : 0 < rawWeightTotal p.priorities)
    (hpop : m.demographics.totalPopulation ≠ 0) :
    calculateSafetyScore p m < calculateSafetyScore p n ∧
    ∃ k1 k2 : ℤ, calculateCompatibility p m = some k1 ∧
      calculateCompatibility p n = some k2 ∧ k1 ≤ k2 := by
  subst heq
  have hb0 : (0:ℚ) ≤ max 0 ((50 - m.safety.crimeRate) / 50) * 10 := by positivity
  have hb10 : max 0 ((50 - m.safety.crimeRate) / 50) * 10 ≤ 10 := by
    have hx : max (0:ℚ) ((50 - m.safety.crimeRate) / 50) ≤ 1 :=
      max_le (by norm_num) (by linarith)
    linarith
  have hcs : calculateSafetyScore p m <
      calculateSafetyScore p { m with safety := { m.safety with safetyScore := 95 } } := by
    show min MAX_SCORE (m.safety.safetyScore + max 0 ((50 - m.safety.crimeRate) / 50) * 10) <
      min MAX_SCORE (95 + max 0 ((50 - m.safety.crimeRate) / 50) * 10)
    rw [h70]
    unfold MAX_SCORE
    have l1 : min (100:ℚ) (70 + max 0 ((50 - m.safety.crimeRate) / 50) * 10) =
        70 + max 0 ((50 - m.safety.crimeRate) / 50) * 10 := min_eq_right (by linarith)
    have l2 : (95:ℚ) ≤ min 100 (95 + max 0 ((50 - m.safety.crimeRate) / 50) * 10) :=
      le_min (by norm_num) (by linarith)
    rw [l1]
    linarith
  refine ⟨hcs, ?_⟩
  rw [calculateCompatibility_eq_some p m hpop (ne_of_gt hT),
      calculateCompatibility_eq_some p { m with safety := { m.safety with safetyScore := 95 } }
        hpop (ne_of_gt hT)]
  refine ⟨_, _, rfl, rfl, ?_⟩
  apply jsRound_mono
  have e2 : calculateAmenitiesScore p { m with safety := { m.safety with safetyScore := 95 } } =
      calculateAmenitiesScore p m := rfl
  have e3 : calculateTransportationScore p
      { m with safety := { m.safety with safetyScore := 95 } } =
      calculateTransportationScore p m := rfl
  have e4 : lifestyleScoreVal p { m with safety := { m.safety with safetyScore := 95 } } =
      lifestyleScoreVal p m := rfl
  have e5 : calculateAffordabilityScore p
      { m with safety := { m.safety with safetyScore := 95 } } =
      calculateAffordabilityScore p m := rfl
  have e6 : familyFriendlyScoreVal p { m with safety := { m.safety with safetyScore := 95 } } =
      familyFriendlyScoreVal p m := rfl
  have e7 : calculateNightlifeScore p { m with safety := { m.safety with safetyScore := 95 } } =
      calculateNightlifeScore p m := rfl
  have e8 : calculateQuietnessScore p { m with safety := { m.safety with safetyScore := 95 } } =
      calculateQuietnessScore p m := rfl
  rw [e2, e3, e4, e5, e6, e7, e8]
  have hkey : calculateSafetyScore p m * weightOrDefault p.priorities.safety /
      rawWeightTotal p.priorities ≤
      calculateSafetyScore p { m with safety := { m.safety with safetyScore := 95 } } *
        weightOrDefault p.priorities.safety / rawWeightTotal p.priorities :=
    (div_le_div_iff_of_pos_right hT).mpr
      (mul_le_mul_of_nonneg_right (le_of_lt hcs) (le_of_lt hw))
  linarith

/-- Witness for C6 at the concrete 70-versus-95 pair. -/
theorem claim6_safety_monotonicity_witness :
    calculateSafetyScore prefs6 nbhd6a < calculateSafetyScore prefs6 nbhd6b ∧
    ∃ k1 k2 : ℤ, calculateCompatibility prefs6 nbhd6a = some k1 ∧
      calculateCompatibility prefs6 nbhd6b = some k2 ∧ k1 ≤ k2 :=
  claim6_safety_monotonicity prefs6 nbhd6a nbhd6b rfl rfl
    (by norm_num [nbhd6a])
    (by norm_num [weightOrDefault, prefs6, prefsB])
    (by norm_num [rawWeightTotal, prefs6, prefsB])
    (by norm_num [nbhd6a])

/-- C6 counterexample: with safety weight 1 (positive) among weights of 10,
the safety sub-score rises strictly from 70 to 95 but both aggregates round
to 18, so the overall score does not strictly increase. -/
theorem claim6_counterexample :
    nbhd6a.safety.safetyScore = 70 ∧
    nbhd6b = { nbhd6a with safety := { nbhd6a.safety with safetyScore := 95 } } ∧
    0 < weightOrDefault prefs6.priorities.safety ∧
    calculateSafetyScore prefs6 nbhd6a < calculateSafetyScore prefs6 nbhd6b ∧
    calculateCompatibility prefs6 nbhd6a = some 18 ∧
    calculateCompatibility prefs6 nbhd6b = some 18 := by
  refine ⟨rfl, rfl, ?_, ?_, ?_, ?_⟩
  · norm_num [weightOrDefault, prefs6, prefsB]
  · norm_num [calculateSafetyScore, MAX_SCORE, prefs6, prefsB, nbhd6a, nbhd6b, min_def, max_def]
  · norm_num [calculateCompatibility, calculateLifestyleScore, calculateFamilyFriendlyScore,
      calculateAgeGroupCompatibility, calculateActivityCompatibility, calculateSocialCompatibility,
      calculateSafetyScore, calculateAmenitiesScore, calculateTransportationScore,
      calculateAffordabilityScore, calculateNightlifeScore, calculateQuietnessScore,
      totalAmenitiesCount, rawWeightTotal, weightOrDefault,
      MAX_SCORE, prefs6, prefsB, nbhd6a, jsRoundQ, jsRound, min_def, max_def]
  · norm_num [calculateCompatibility, calculateLifestyleScore, calculateFamilyFriendlyScore,
      calculateAgeGroupCompatibility, calculateActivityCompatibility, calculateSocialCompatibility,
      calculateSafetyScore, calculateAmenitiesScore, calculateTransportationScore,
      calculateAffordabilityScore, calculateNightlifeScore, calculateQuietnessScore,
      totalAmenitiesCount, rawWeightTotal, weightOrDefault,
      MAX_SCORE, prefs6, prefsB, nbhd6b, nbhd6a, jsRoundQ, jsRound, min_def, max_def]

/-- C8 (confirmed): the concerns list contains each of the three strings iff
its threshold fires (crime > 30, estimated cost > budget.max,
walkability < 30); the rules are independent and the firing strings appear
in exactly that fixed order. -/
theorem claim8_concerns (p : UserPreferences) (n : Neighborhood) :
    generatePotentialConcerns p n =
      (if n.safety.crimeRate > 30 then ["Higher than average crime rate"] else []) ++
      (if n.demographics.medianIncome * 0.3 > p.budget.max then
        ["May exceed your budget range"] else []) ++
      (if n.transportation.walkabilityScore < 30 then ["Limited walkability"] else []) ∧
    ("Higher than average crime rate" ∈ generatePotentialConcerns p n ↔
      n.safety.crimeRate > 30) ∧
    ("May exceed your budget range" ∈ generatePotentialConcerns p n ↔
      n.demographics.medianIncome * 0.3 > p.budget.max) ∧
    ("Limited walkability" ∈ generatePotentialConcerns p n ↔
      n.transportation.walkabilityScore < 30) := by
  simp only [generatePotentialConcerns]
  split_ifs with h1 h2 h3 <;> simp_all

/-- C9 (amended): a malformed lifestyle enum is not rejected: the route
rejects only a missing `preferences` or `neighborhoods` field, and each
enum-dispatching calculator scores an unrecognized value as a neutral 50, so
a full compatibility score is computed. -/
theorem claim9_no_enum_rejection :
    (∀ (body : MatchingRequestBody) (p : UserPreferences) (ns : List Neighborhood),
      body.preferences = some p → body.neighborhoods = some ns →
      matchingPost body = MatchingResponse.ok (ns.map fun n => generateMatchingResult p n)) ∧
    (∀ body : MatchingRequestBody, body.preferences = none ∨ body.neighborhoods = none →
      matchingPost body = MatchingResponse.badRequest "Missing preferences or neighborhoods") ∧
    (∀ (s : String) (d : Demographics), s ≠ "young" → s ≠ "family" → s ≠ "senior" →
      s ≠ "mixed" → calculateAgeGroupCompatibility s d = some 50) ∧
    (∀ (s : String) (l : LifestyleMetrics), s ≠ "high" → s ≠ "medium" → s ≠ "low" →
      calculateActivityCompatibility s l = 50) ∧
    (∀ (s : String) (l : LifestyleMetrics), s ≠ "extrovert" → s ≠ "introvert" →
      s ≠ "balanced" → calculateSocialCompatibility s l = 50) := by
  refine ⟨?_, ?_, ?_, ?_, ?_⟩
  · intro body p ns h1 h2
    unfold matchingPost
    rw [h1, h2]
  · intro body h
    rcases h with h | h
    · unfold matchingPost
      rw [h]
    · rcases hb : body.preferences with _ | q <;> · unfold matchingPost; rw [hb, h]
  · intro s d h1 h2 h3 h4
    unfold calculateAgeGroupCompatibility
    split <;> simp_all
  · intro s l h1 h2 h3
    unfold calculateActivityCompatibility
    split <;> simp_all
  · intro s l h1 h2 h3
    unfold calculateSocialCompatibility
    split <;> simp_all

/-- Witness for C9 at a concrete malformed-enum request body. -/
theorem claim9_no_enum_rejection_witness :
    matchingPost { preferences := some prefsRobot, neighborhoods := some [nbhdB] } =
      MatchingResponse.ok ([nbhdB].map fun n => generateMatchingResult prefsRobot n) ∧
    matchingPost { preferences := none, neighborhoods := some [nbhdB] } =
      MatchingResponse.badRequest "Missing preferences or neighborhoods" ∧
    calculateAgeGroupCompatibility "robot" nbhdB.demographics = some 50 ∧
    calculateActivityCompatibility "robot" nbhdB.lifestyle = 50 ∧
    calculateSocialCompatibility "robot" nbhdB.lifestyle = 50 :=
  ⟨claim9_no_enum_rejection.1 _ prefsRobot [nbhdB] rfl rfl,
   claim9_no_enum_rejection.2.1 _ (Or.inl rfl),
   claim9_no_enum_rejection.2.2.1 "robot" _ (by decide) (by decide) (by decide) (by decide),
   claim9_no_enum_rejection.2.2.2.1 "robot" _ (by decide) (by decide) (by decide),
   claim9_no_enum_rejection.2.2.2.2 "robot" _ (by decide) (by decide) (by decide)⟩

/-- C9 counterexample: a request whose age group is the malformed "robot" is
not rejected; the route answers 200 with a fully computed score (64). -/
theorem claim9_counterexample :
    prefsRobot.lifestyle.ageGroup = "robot" ∧
    prefsRobot.lifestyle.ageGroup ≠ "young" ∧ prefsRobot.lifestyle.ageGroup ≠ "family" ∧
    prefsRobot.lifestyle.ageGroup ≠ "senior" ∧ prefsRobot.lifestyle.ageGroup ≠ "mixed" ∧
    matchingPost { preferences := some prefsRobot, neighborhoods := some [nbhdB] } =
      MatchingResponse.ok [generateMatchingResult prefsRobot nbhdB] ∧
    (generateMatchingResult prefsRobot nbhdB).compatibilityScore = some 64 := by
  refine ⟨rfl, by decide, by decide, by decide, by decide, rfl, ?_⟩
  show calculateCompatibility prefsRobot nbhdB = some 64
  have hage : ∀ d, calculateAgeGroupCompatibility "robot" d = some 50 := fun d => rfl
  norm_num [calculateCompatibility, calculateLifestyleScore, calculateFamilyFriendlyScore,
    hage, calculateActivityCompatibility, calculateSocialCompatibility,
    calculateSafetyScore, calculateAmenitiesScore, calculateTransportationScore,
    calculateAffordabilityScore, calculateNightlifeScore, calculateQuietnessScore,
    totalAmenitiesCount, rawWeightTotal, weightOrDefault, allFivePriorities,
    MAX_SCORE, prefsRobot, prefsB, nbhdB, jsRoundQ, jsRound, min_def, max_def]

/-- C10 (confirmed): with an empty search term and the other three filters
satisfied by every element, the page filter retains exactly the neighborhoods
whose total amenity count reaches the threshold, in their original order;
in particular totals [10, 40, 55] against a threshold of 30 keep exactly the
last two, in order. -/
theorem claim10_amenity_filter :
    (∀ (neighborhoods : List Neighborhood) (f : SelectedFilters),
      (∀ n ∈ neighborhoods, f.safetyScore ≤ n.safety.safetyScore ∧
          f.walkabilityScore ≤ n.transportation.walkabilityScore ∧
          n.safety.crimeRate ≤ f.maxCrimeRate) →
      filteredNeighborhoods neighborhoods "" f =
        neighborhoods.filter fun n =>
          decide (totalAmenitiesCount n.amenities ≥ f.minAmenities)) ∧
    filteredNeighborhoods [nbhdAm10, nbhdAm40, nbhdAm55] ""
      { defaultSelectedFilters with minAmenities := 30 } = [nbhdAm40, nbhdAm55] := by
  constructor
  · intro ns f h
    unfold filteredNeighborhoods
    apply List.filter_congr
    intro n hn
    obtain ⟨hs, hw, hc⟩ := h n hn
    simp [empty_toLower, jsIncludes_empty, hs, hw, hc]
  · norm_num [filteredNeighborhoods, empty_toLower, jsIncludes_empty, totalAmenitiesCount,
      defaultSelectedFilters, nbhdAm10, nbhdAm40, nbhdAm55, mkFilterNbhd, List.filter]

/-- Witness for C10: the general amenity-filter law applied at the concrete
three-neighborhood list. -/
theorem claim10_amenity_filter_witness :
    filteredNeighborhoods [nbhdAm10, nbhdAm40, nbhdAm55] ""
      { defaultSelectedFilters with minAmenities := 30 } =
      [nbhdAm10, nbhdAm40, nbhdAm55].filter fun n =>
        decide (totalAmenitiesCount n.amenities ≥
          ({ defaultSelectedFilters with minAmenities := 30 } : SelectedFilters).minAmenities) := by
  apply claim10_amenity_filter.1
  intro n hn
  simp only [List.mem_cons, List.not_mem_nil, or_false] at hn
  rcases hn with rfl | rfl | rfl <;>
    norm_num [nbhdAm10, nbhdAm40, nbhdAm55, mkFilterNbhd, defaultSelectedFilters]

end NeighborFit
